import Mathlib

/-!
Verification of the affordability-calculation core of the NSW Housing
Affordability Map (`map_app.js`).

Modelling conventions:
* JavaScript numbers are modelled as exact rationals (`ℚ`) wherever the
  program only ever feeds finite values through `+`, `-`, `*`, `/`, `min`,
  `max` and comparisons.  Where the program's behaviour on the special
  values `NaN` / `Infinity` / `-Infinity` is the point of a claim, the
  type `JSNum` below models the full IEEE special-value algebra that the
  relevant JS operators exhibit (division by zero, comparisons with `NaN`,
  truthiness coercion `x || d`).
* Field names, bracket tables and the control flow of every definition
  mirror `map_app.js`; comments cite the corresponding JS lines.
-/

/-- A JavaScript number: either a finite value (modelled exactly as a
rational) or one of the special values `NaN`, `Infinity`, `-Infinity`. -/
inductive JSNum where
  | num (q : ℚ)
  | posInf
  | negInf
  | nan
deriving DecidableEq, Repr

namespace JSNum

/-- JS `Number.isFinite`. -/
def isFinite : JSNum → Bool
  | num _ => true
  | _ => false

/-- JS global `isNaN` on a number. -/
def isNaN : JSNum → Bool
  | nan => true
  | _ => false

/-- JS `<=` on numbers: any comparison with `NaN` is false;
`-Infinity` is below and `Infinity` above every number. -/
def leB : JSNum → JSNum → Bool
  | nan, _ => false
  | _, nan => false
  | negInf, _ => true
  | _, negInf => false
  | _, posInf => true
  | posInf, _ => false
  | num a, num b => decide (a ≤ b)

/-- JS `<` on numbers: any comparison with `NaN` is false. -/
def ltB : JSNum → JSNum → Bool
  | nan, _ => false
  | _, nan => false
  | posInf, _ => false
  | _, posInf => true
  | _, negInf => false
  | negInf, _ => true
  | num a, num b => decide (a < b)

/-- JS strict equality `===` restricted to numbers (`NaN === NaN` is false). -/
def eqB : JSNum → JSNum → Bool
  | nan, _ => false
  | _, nan => false
  | num a, num b => decide (a = b)
  | posInf, posInf => true
  | negInf, negInf => true
  | _, _ => false

/-- JS truthiness coercion `x || d` on numbers: `NaN` and `0` are falsy and
are replaced by the default `d`; every other number (including `±Infinity`)
passes through. -/
def orDefault (x : JSNum) (d : ℚ) : JSNum :=
  match x with
  | nan => num d
  | num q => if q = 0 then num d else num q
  | posInf => posInf
  | negInf => negInf

end JSNum

/-- JS division of two finite numbers, keeping the IEEE behaviour at a zero
denominator: `x / 0` is `Infinity` for `x > 0`, `-Infinity` for `x < 0`,
and `NaN` for `0 / 0`. -/
def jsDiv (a b : ℚ) : JSNum :=
  if b = 0 then
    if 0 < a then JSNum.posInf else if a < 0 then JSNum.negInf else JSNum.nan
  else JSNum.num (a / b)

/-- JS multiplication of a number by a finite positive constant (used for
the `* 100` scaling of the affordability percentage): it preserves the
special values. -/
def jsMulPos (x : JSNum) (c : ℚ) : JSNum :=
  match x with
  | JSNum.num q => JSNum.num (q * c)
  | v => v

/-- JS `Math.round`: round half toward positive infinity,
`Math.round x = ⌊x + 1/2⌋`. -/
def jsRound (q : ℚ) : ℚ := ((⌊q + 1/2⌋ : ℤ) : ℚ)

/-- The only hard failure of the core: the `TypeError` thrown by the tax
conversions on a non-finite argument (`map_app.js` lines 332 and 365). -/
inductive TaxError where
  | invalidInput
deriving DecidableEq, Repr

/-- One row of the Australian 2024–25 tax bracket tables used by
`_convertNetToGross` / `_calculateNetIncome` (`map_app.js` lines 336–342 and
367–373).  `upper = none` encodes the JS `Infinity` upper bound of the last
bracket; `Cprev` is the precomputed cumulative tax below `lower` (present
only in the net→gross table; the gross→net table leaves it at 0). -/
structure TaxBracket where
  lower : ℚ
  upper : Option ℚ
  r : ℚ
  Cprev : ℚ
deriving DecidableEq, Repr

/-- The bracket table of `_convertNetToGross` (`map_app.js` lines 336–342). -/
def NTG_BRACKETS : List TaxBracket :=
  [ { lower := 0,      upper := some 18200,  r := 0,      Cprev := 0 },
    { lower := 18200,  upper := some 45000,  r := 16/100, Cprev := 0 },
    { lower := 45000,  upper := some 135000, r := 30/100, Cprev := 4288 },
    { lower := 135000, upper := some 190000, r := 37/100, Cprev := 31288 },
    { lower := 190000, upper := none,        r := 45/100, Cprev := 51638 } ]

/-- The bracket table of `_calculateNetIncome` (`map_app.js` lines 367–373);
same bounds and rates, no cumulative column (`Cprev` unused, kept at 0). -/
def GTN_BRACKETS : List TaxBracket :=
  [ { lower := 0,      upper := some 18200,  r := 0,      Cprev := 0 },
    { lower := 18200,  upper := some 45000,  r := 16/100, Cprev := 0 },
    { lower := 45000,  upper := some 135000, r := 30/100, Cprev := 0 },
    { lower := 135000, upper := some 190000, r := 37/100, Cprev := 0 },
    { lower := 190000, upper := none,        r := 45/100, Cprev := 0 } ]

/-- JS `Math.min(grossIncome, upper)` where `upper` may be `Infinity`
(`upper = none`). -/
def jsMin (g : ℚ) : Option ℚ → ℚ
  | some u => min g u
  | none => g

/-- Gross→net conversion `_calculateNetIncome` (`map_app.js` lines 364–383),
after the `Number.isFinite` guard (every `ℚ` is finite; the guard itself is
modelled by `_calculateNetIncomeJS` below).  Negative input returns 0; else
tax accumulates `(min(gross, upper) - lower) * r` over every bracket whose
`lower` is exceeded, and the result is `gross - tax`. -/
def _calculateNetIncome (grossIncome : ℚ) : ℚ :=
  if grossIncome < 0 then 0
  else
    let tax := GTN_BRACKETS.foldl
      (fun tax b =>
        if b.lower < grossIncome then tax + (jsMin grossIncome b.upper - b.lower) * b.r
        else tax) 0
    grossIncome - tax

/-- The bracket-search loop of `_convertNetToGross` (`map_app.js` lines
345–357), run on the tail of the bracket table (the JS loop starts at
`i = 1`).  For each bracket, if `1 - r ≤ 0` the bracket is skipped
(`continue`); otherwise the candidate gross
`(net + Cprev - r * lower) / (1 - r)` is accepted when it lies in
`[lower, upper)` — for the final bracket (`upper = none`, i.e. `Infinity`)
acceptance only requires `candidate ≥ lower`, exactly as in the JS
`i === BRACKETS.length - 1` test.  `none` models falling through the loop. -/
def netToGrossLoop (netIncome : ℚ) : List TaxBracket → Option ℚ
  | [] => none
  | b :: rest =>
    let denom := 1 - b.r
    if denom ≤ 0 then netToGrossLoop netIncome rest
    else
      let candidateGross := (netIncome + b.Cprev - b.r * b.lower) / denom
      let inRange : Bool :=
        decide (b.lower ≤ candidateGross) &&
          (match b.upper with
           | some u => decide (candidateGross < u)
           | none => decide (b.lower ≤ candidateGross))
      if inRange then some candidateGross else netToGrossLoop netIncome rest

/-- Net→gross conversion `_convertNetToGross` (`map_app.js` lines 331–361),
after the `Number.isFinite` guard (see `_convertNetToGrossJS`).  Negative
input clamps to gross 0; input not above `BRACKETS[0].upper = 18200` is
returned unchanged; otherwise the bracket-search loop runs, with the JS
fallback after the loop applying the last bracket's formula
`(net + Cprev - r * lower) / (1 - r)` with `r = 45/100`, `lower = 190000`,
`Cprev = 51638` (`map_app.js` lines 359–360). -/
def _convertNetToGross (netIncome : ℚ) : ℚ :=
  if netIncome < 0 then 0
  else if netIncome ≤ 18200 then netIncome
  else
    match netToGrossLoop netIncome (NTG_BRACKETS.drop 1) with
    | some g => g
    | none => (netIncome + 51638 - (45/100) * 190000) / (1 - 45/100)

/-- The `Number.isFinite` guard of `_convertNetToGross` (`map_app.js` line
332): a non-finite argument throws a `TypeError`, a finite one proceeds to
the exact computation. -/
def _convertNetToGrossJS (netIncome : JSNum) : Except TaxError ℚ :=
  match netIncome with
  | JSNum.num q => Except.ok (_convertNetToGross q)
  | _ => Except.error TaxError.invalidInput

/-- The `Number.isFinite` guard of `_calculateNetIncome` (`map_app.js` line
365): a non-finite argument throws a `TypeError`. -/
def _calculateNetIncomeJS (grossIncome : JSNum) : Except TaxError ℚ :=
  match grossIncome with
  | JSNum.num q => Except.ok (_calculateNetIncome q)
  | _ => Except.error TaxError.invalidInput

/-! ### Closed forms of the tax conversions on each bracket -/

theorem calculateNetIncome_b0 {g : ℚ} (h0 : 0 ≤ g) (h1 : g ≤ 18200) :
    _calculateNetIncome g = g := by
  simp only [_calculateNetIncome, GTN_BRACKETS, List.foldl, jsMin]
  rw [if_neg ?_, if_neg ?_, if_neg ?_, if_neg ?_, if_neg ?_]
  · split_ifs <;> ring
  all_goals linarith

theorem calculateNetIncome_b1 {g : ℚ} (h0 : 18200 < g) (h1 : g ≤ 45000) :
    _calculateNetIncome g = g - (g - 18200) * (16/100) := by
  simp only [_calculateNetIncome, GTN_BRACKETS, List.foldl, jsMin]
  rw [if_neg ?_, if_neg ?_, if_neg ?_, if_neg ?_, if_pos ?_, if_pos ?_]
  · rw [min_eq_left h1]; ring
  all_goals linarith

theorem calculateNetIncome_b2 {g : ℚ} (h0 : 45000 < g) (h1 : g ≤ 135000) :
    _calculateNetIncome g = g - (4288 + (g - 45000) * (30/100)) := by
  simp only [_calculateNetIncome, GTN_BRACKETS, List.foldl, jsMin]
  rw [if_neg ?_, if_neg ?_, if_neg ?_, if_pos ?_, if_pos ?_, if_pos ?_]
  · rw [min_eq_left h1, min_eq_right (show (45000:ℚ) ≤ g by linarith)]; ring
  all_goals linarith

theorem calculateNetIncome_b3 {g : ℚ} (h0 : 135000 < g) (h1 : g ≤ 190000) :
    _calculateNetIncome g = g - (31288 + (g - 135000) * (37/100)) := by
  simp only [_calculateNetIncome, GTN_BRACKETS, List.foldl, jsMin]
  rw [if_neg ?_, if_neg ?_, if_pos ?_, if_pos ?_, if_pos ?_, if_pos ?_]
  · rw [min_eq_left h1, min_eq_right (show (45000:ℚ) ≤ g by linarith),
      min_eq_right (show (135000:ℚ) ≤ g by linarith)]
    ring
  all_goals linarith

theorem calculateNetIncome_b4 {g : ℚ} (h0 : 190000 < g) :
    _calculateNetIncome g = g - (51638 + (g - 190000) * (45/100)) := by
  simp only [_calculateNetIncome, GTN_BRACKETS, List.foldl, jsMin]
  rw [if_neg ?_, if_pos ?_, if_pos ?_, if_pos ?_, if_pos ?_, if_pos ?_]
  · rw [min_eq_right (show (45000:ℚ) ≤ g by linarith),
      min_eq_right (show (135000:ℚ) ≤ g by linarith),
      min_eq_right (show (190000:ℚ) ≤ g by linarith)]
    ring
  all_goals linarith

/-- One step of the bracket-search loop: a bounded bracket accepts when its
candidate gross lies in `[lower, upper)` (hypotheses stated with the
positive denominator `1 - r` cleared). -/
theorem netToGrossLoop_accept {n u : ℚ} {b : TaxBracket} {rest : List TaxBracket}
    (hu : b.upper = some u) (hdenom : 0 < 1 - b.r)
    (hlo : b.lower * (1 - b.r) ≤ n + b.Cprev - b.r * b.lower)
    (hup : n + b.Cprev - b.r * b.lower < u * (1 - b.r)) :
    netToGrossLoop n (b :: rest) = some ((n + b.Cprev - b.r * b.lower) / (1 - b.r)) := by
  simp only [netToGrossLoop, hu]
  rw [if_neg (by linarith), if_pos ?_]
  simp only [Bool.and_eq_true, decide_eq_true_eq]
  constructor
  · rw [le_div_iff₀ hdenom]; linarith
  · rw [div_lt_iff₀ hdenom]; linarith

/-- One step of the bracket-search loop: the final unbounded bracket accepts
as soon as its candidate gross is at least `lower`. -/
theorem netToGrossLoop_acceptLast {n : ℚ} {b : TaxBracket} {rest : List TaxBracket}
    (hu : b.upper = none) (hdenom : 0 < 1 - b.r)
    (hlo : b.lower * (1 - b.r) ≤ n + b.Cprev - b.r * b.lower) :
    netToGrossLoop n (b :: rest) = some ((n + b.Cprev - b.r * b.lower) / (1 - b.r)) := by
  simp only [netToGrossLoop, hu]
  rw [if_neg (by linarith), if_pos ?_]
  simp only [Bool.and_eq_true, decide_eq_true_eq]
  constructor <;> (rw [le_div_iff₀ hdenom]; linarith)

/-- One step of the bracket-search loop: a bounded bracket whose candidate
gross reaches `upper` rejects, and the loop moves to the next bracket. -/
theorem netToGrossLoop_reject_high {n u : ℚ} {b : TaxBracket} {rest : List TaxBracket}
    (hu : b.upper = some u) (hdenom : 0 < 1 - b.r)
    (h : u * (1 - b.r) ≤ n + b.Cprev - b.r * b.lower) :
    netToGrossLoop n (b :: rest) = netToGrossLoop n rest := by
  simp only [netToGrossLoop, hu]
  rw [if_neg (by linarith), if_neg ?_]
  simp only [Bool.and_eq_true, decide_eq_true_eq, not_and, not_lt]
  intro _
  rw [le_div_iff₀ hdenom]
  linarith

/-- The tail of the net→gross bracket table, as an explicit list. -/
theorem NTG_BRACKETS_tail : NTG_BRACKETS.drop 1 =
    [⟨18200, some 45000, 16/100, 0⟩, ⟨45000, some 135000, 30/100, 4288⟩,
     ⟨135000, some 190000, 37/100, 31288⟩, ⟨190000, none, 45/100, 51638⟩] := rfl

theorem netToGrossLoop_b1 {n : ℚ} (h0 : 18200 < n) (h1 : n < 40712) :
    netToGrossLoop n (NTG_BRACKETS.drop 1) =
      some ((n + 0 - (16/100) * 18200) / (1 - 16/100)) := by
  rw [NTG_BRACKETS_tail,
    netToGrossLoop_accept rfl (by norm_num) (by norm_num; linarith)
      (by norm_num; linarith)]

theorem netToGrossLoop_b2 {n : ℚ} (h0 : 40712 ≤ n) (h1 : n < 103712) :
    netToGrossLoop n (NTG_BRACKETS.drop 1) =
      some ((n + 4288 - (30/100) * 45000) / (1 - 30/100)) := by
  rw [NTG_BRACKETS_tail,
    netToGrossLoop_reject_high rfl (by norm_num) (by norm_num; linarith),
    netToGrossLoop_accept rfl (by norm_num) (by norm_num; linarith)
      (by norm_num; linarith)]

theorem netToGrossLoop_b3 {n : ℚ} (h0 : 103712 ≤ n) (h1 : n < 138362) :
    netToGrossLoop n (NTG_BRACKETS.drop 1) =
      some ((n + 31288 - (37/100) * 135000) / (1 - 37/100)) := by
  rw [NTG_BRACKETS_tail,
    netToGrossLoop_reject_high rfl (by norm_num) (by norm_num; linarith),
    netToGrossLoop_reject_high rfl (by norm_num) (by norm_num; linarith),
    netToGrossLoop_accept rfl (by norm_num) (by norm_num; linarith)
      (by norm_num; linarith)]

theorem netToGrossLoop_b4 {n : ℚ} (h0 : 138362 ≤ n) :
    netToGrossLoop n (NTG_BRACKETS.drop 1) =
      some ((n + 51638 - (45/100) * 190000) / (1 - 45/100)) := by
  rw [NTG_BRACKETS_tail,
    netToGrossLoop_reject_high rfl (by norm_num) (by norm_num; linarith),
    netToGrossLoop_reject_high rfl (by norm_num) (by norm_num; linarith),
    netToGrossLoop_reject_high rfl (by norm_num) (by norm_num; linarith),
    netToGrossLoop_acceptLast rfl (by norm_num) (by norm_num; linarith)]

theorem convertNetToGross_b0 {n : ℚ} (h0 : 0 ≤ n) (h1 : n ≤ 18200) :
    _convertNetToGross n = n := by
  simp only [_convertNetToGross]
  rw [if_neg (by linarith), if_pos h1]

theorem convertNetToGross_b1 {n : ℚ} (h0 : 18200 < n) (h1 : n < 40712) :
    _convertNetToGross n = (n + 0 - (16/100) * 18200) / (1 - 16/100) := by
  simp only [_convertNetToGross]
  rw [if_neg (by linarith), if_neg (by linarith), netToGrossLoop_b1 h0 h1]

theorem convertNetToGross_b2 {n : ℚ} (h0 : 40712 ≤ n) (h1 : n < 103712) :
    _convertNetToGross n = (n + 4288 - (30/100) * 45000) / (1 - 30/100) := by
  simp only [_convertNetToGross]
  rw [if_neg (by linarith), if_neg (by linarith), netToGrossLoop_b2 h0 h1]

theorem convertNetToGross_b3 {n : ℚ} (h0 : 103712 ≤ n) (h1 : n < 138362) :
    _convertNetToGross n = (n + 31288 - (37/100) * 135000) / (1 - 37/100) := by
  simp only [_convertNetToGross]
  rw [if_neg (by linarith), if_neg (by linarith), netToGrossLoop_b3 h0 h1]

theorem convertNetToGross_b4 {n : ℚ} (h0 : 138362 ≤ n) :
    _convertNetToGross n = (n + 51638 - (45/100) * 190000) / (1 - 45/100) := by
  simp only [_convertNetToGross]
  rw [if_neg (by linarith), if_neg (by linarith), netToGrossLoop_b4 h0]

theorem convertNetToGross_gt {n : ℚ} (h1 : 18200 < n) : n < _convertNetToGross n := by
  rcases lt_or_le n 40712 with h2 | h2
  · rw [convertNetToGross_b1 h1 h2, lt_div_iff₀ (by norm_num)]; linarith
  rcases lt_or_le n 103712 with h3 | h3
  · rw [convertNetToGross_b2 h2 h3, lt_div_iff₀ (by norm_num)]; linarith
  rcases lt_or_le n 138362 with h4 | h4
  · rw [convertNetToGross_b3 h3 h4, lt_div_iff₀ (by norm_num)]; linarith
  · rw [convertNetToGross_b4 h4, lt_div_iff₀ (by norm_num)]; linarith

theorem netToGrossLoop_isSome {n : ℚ} (h1 : 18200 < n) :
    (netToGrossLoop n (NTG_BRACKETS.drop 1)).isSome = true := by
  rcases lt_or_le n 40712 with h2 | h2
  · rw [netToGrossLoop_b1 h1 h2]; rfl
  rcases lt_or_le n 103712 with h3 | h3
  · rw [netToGrossLoop_b2 h2 h3]; rfl
  rcases lt_or_le n 138362 with h4 | h4
  · rw [netToGrossLoop_b3 h3 h4]; rfl
  · rw [netToGrossLoop_b4 h4]; rfl

/-- Claim C1: round-trip inverse of the tax conversions.  For every
gross ≥ 0, converting gross→net (`_calculateNetIncome`) and back
net→gross (`_convertNetToGross`) returns the original gross.  Over the
exact rational model the identity is exact, which in particular implies
the claimed `1e-6` relative tolerance. -/
theorem C1_tax_roundtrip (gross : ℚ) (h : 0 ≤ gross) :
    _convertNetToGross (_calculateNetIncome gross) = gross := by
  rcases le_or_lt gross 18200 with h1 | h1
  · rw [calculateNetIncome_b0 h h1]
    exact convertNetToGross_b0 h h1
  rcases le_or_lt gross 45000 with h2 | h2
  · rcases eq_or_lt_of_le h2 with he | hs
    · subst he
      norm_num [_calculateNetIncome, GTN_BRACKETS, List.foldl, jsMin,
        _convertNetToGross, NTG_BRACKETS, netToGrossLoop]
    · rw [calculateNetIncome_b1 h1 h2,
        convertNetToGross_b1 (by linarith) (by linarith)]
      rw [div_eq_iff (by norm_num)]
      ring
  rcases le_or_lt gross 135000 with h3 | h3
  · rcases eq_or_lt_of_le h3 with he | hs
    · subst he
      norm_num [_calculateNetIncome, GTN_BRACKETS, List.foldl, jsMin,
        _convertNetToGross, NTG_BRACKETS, netToGrossLoop]
    · rw [calculateNetIncome_b2 h2 h3,
        convertNetToGross_b2 (by linarith) (by linarith)]
      rw [div_eq_iff (by norm_num)]
      ring
  rcases le_or_lt gross 190000 with h4 | h4
  · rcases eq_or_lt_of_le h4 with he | hs
    · subst he
      norm_num [_calculateNetIncome, GTN_BRACKETS, List.foldl, jsMin,
        _convertNetToGross, NTG_BRACKETS, netToGrossLoop]
    · rw [calculateNetIncome_b3 h3 h4,
        convertNetToGross_b3 (by linarith) (by linarith)]
      rw [div_eq_iff (by norm_num)]
      ring
  · rw [calculateNetIncome_b4 h4,
      convertNetToGross_b4 (by linarith)]
    rw [div_eq_iff (by norm_num)]
    ring

/-- Witness for C1 at the concrete gross income 100000. -/
theorem C1_tax_roundtrip_witness :
    (0:ℚ) ≤ 100000 ∧ _convertNetToGross (_calculateNetIncome 100000) = 100000 :=
  ⟨by norm_num, C1_tax_roundtrip 100000 (by norm_num)⟩

/-- Claim C7: the two bracket tables are numerically consistent — in the
net→gross table, each bracket's precomputed cumulative tax `Cprev` equals
the exact tax that `_calculateNetIncome` computes at that bracket's lower
bound (`lower - _calculateNetIncome lower`). -/
theorem C7_bracket_tables_consistent :
    NTG_BRACKETS.map (fun b => b.Cprev) =
      NTG_BRACKETS.map (fun b => b.lower - _calculateNetIncome b.lower) := by
  norm_num [NTG_BRACKETS, _calculateNetIncome, GTN_BRACKETS, List.foldl,
    jsMin, List.map]

/-- Claim C10 (implicit): for every finite net ≥ 0, `_convertNetToGross`
returns a gross `g ≥ net` (the imputed tax is non-negative); `g = net`
exactly when `net ≤ 18200`, `g > net` when `net > 18200`, and in the
latter case the bracket-search loop itself produces the result (the final
fallback is never reached). -/
theorem C10_netToGross_total (net : ℚ) (h : 0 ≤ net) :
    net ≤ _convertNetToGross net ∧
    (_convertNetToGross net = net ↔ net ≤ 18200) ∧
    (18200 < net → net < _convertNetToGross net) ∧
    (18200 < net → (netToGrossLoop net (NTG_BRACKETS.drop 1)).isSome = true) := by
  rcases le_or_lt net 18200 with h1 | h1
  · rw [convertNetToGross_b0 h h1]
    exact ⟨le_refl _, ⟨fun _ => h1, fun _ => rfl⟩,
      fun hc => absurd hc (not_lt.mpr h1), fun hc => absurd hc (not_lt.mpr h1)⟩
  · have hgt := convertNetToGross_gt h1
    exact ⟨le_of_lt hgt, ⟨fun heq => absurd heq (ne_of_gt hgt),
      fun hle => absurd h1 (not_lt.mpr hle)⟩,
      fun _ => hgt, fun _ => netToGrossLoop_isSome h1⟩

/-- Witness for C10 at the concrete net income 50000. -/
theorem C10_netToGross_total_witness :
    (0:ℚ) ≤ 50000 ∧
      ((50000:ℚ) ≤ _convertNetToGross 50000 ∧
      (_convertNetToGross 50000 = 50000 ↔ (50000:ℚ) ≤ 18200) ∧
      ((18200:ℚ) < 50000 → (50000:ℚ) < _convertNetToGross 50000) ∧
      ((18200:ℚ) < 50000 →
        (netToGrossLoop 50000 (NTG_BRACKETS.drop 1)).isSome = true)) :=
  ⟨by norm_num, C10_netToGross_total 50000 (by norm_num)⟩

/-! ### Mortgage calculator -/

/-- The two repayment types (`map_app.js` line 321 compares against the
string `IO`; everything else takes the principal-and-interest path). -/
inductive MortgageType where
  | interestOnly
  | principalAndInterest
deriving DecidableEq, Repr

/-- The `{ payment, interest }` record returned by `_calculateMortgage`. -/
structure MortgagePayment where
  payment : ℚ
  interest : ℚ
deriving DecidableEq, Repr

/-- `_calculateMortgage` (`map_app.js` lines 309–328).  `termYears` is
modelled as a natural number of years so that `Math.pow(1 + monthlyRate,
numPayments)` is an exact integer power (the JS field accepts arbitrary
numerics, but a payment count is only meaningful as a whole number).
Division is field division on `ℚ`, which collapses the source's
division-by-zero-to-`Infinity` path (reachable only at `termYears = 0`)
to 0 — `_calculateMortgageJS` below keeps that path; for every term ≥ 1
the two agree (`calculateMortgageJS_agrees`). -/
def _calculateMortgage (loanAmount annualRate : ℚ) (termYears : ℕ)
    (type : MortgageType) : MortgagePayment :=
  if loanAmount ≤ 0 then { payment := 0, interest := 0 }
  else
    let numPayments := termYears * 12
    if annualRate = 0 then
      { payment := loanAmount / (numPayments : ℚ), interest := 0 }
    else
      let monthlyRate := (annualRate / 100) / 12
      let monthlyInterest := loanAmount * monthlyRate
      match type with
      | MortgageType.interestOnly =>
          { payment := monthlyInterest, interest := monthlyInterest }
      | MortgageType.principalAndInterest =>
          let factor := (1 + monthlyRate) ^ numPayments
          { payment := monthlyInterest * factor / (factor - 1),
            interest := monthlyInterest }

/-- The `{ payment, interest }` record of `_calculateMortgage` with the
payment as a full JS number, so the division-by-zero result `Infinity` is
representable. -/
structure MortgagePaymentJS where
  payment : JSNum
  interest : JSNum
deriving DecidableEq, Repr

/-- `_calculateMortgage` (`map_app.js` lines 309–328) with the source's
IEEE division semantics kept (`jsDiv`): at `termYears = 0` the
straight-line payment `loanAmount / 0` and the annuity payment
`monthlyInterest * factor / (factor - 1)` (where `factor = (1+r)^0 = 1`)
are `Infinity`, exactly as `Math.pow` and `/` produce in JS. -/
def _calculateMortgageJS (loanAmount annualRate : ℚ) (termYears : ℕ)
    (type : MortgageType) : MortgagePaymentJS :=
  if loanAmount ≤ 0 then { payment := JSNum.num 0, interest := JSNum.num 0 }
  else
    let numPayments := termYears * 12
    if annualRate = 0 then
      { payment := jsDiv loanAmount (numPayments : ℚ), interest := JSNum.num 0 }
    else
      let monthlyRate := (annualRate / 100) / 12
      let monthlyInterest := loanAmount * monthlyRate
      match type with
      | MortgageType.interestOnly =>
          { payment := JSNum.num monthlyInterest,
            interest := JSNum.num monthlyInterest }
      | MortgageType.principalAndInterest =>
          let factor := (1 + monthlyRate) ^ numPayments
          { payment := jsDiv (monthlyInterest * factor) (factor - 1),
            interest := JSNum.num monthlyInterest }

theorem monthlyInterest_lt_annuity {mi f : ℚ} (hmi : 0 < mi) (hf : 1 < f) :
    mi < mi * f / (f - 1) := by
  rw [lt_div_iff₀ (by linarith)]
  nlinarith

/-- With a non-negative rate and a term of at least one year no division
by zero occurs, and the two mortgage models agree. -/
theorem calculateMortgageJS_agrees (p r : ℚ) (t : ℕ) (ty : MortgageType)
    (hr : 0 ≤ r) (ht : 1 ≤ t) :
    _calculateMortgageJS p r t ty =
      { payment := JSNum.num (_calculateMortgage p r t ty).payment
        interest := JSNum.num (_calculateMortgage p r t ty).interest } := by
  have hn : ((t * 12 : ℕ) : ℚ) ≠ 0 := Nat.cast_ne_zero.mpr (by omega)
  simp only [_calculateMortgageJS, _calculateMortgage]
  split_ifs with h1 h2
  · rfl
  · simp only [jsDiv, hn, if_neg]
    simp
  · have hrpos : 0 < r := lt_of_le_of_ne hr (Ne.symm h2)
    have hmr : 0 < r / 100 / 12 := by positivity
    have hf : 1 < (1 + r / 100 / 12) ^ (t * 12) :=
      one_lt_pow₀ (by linarith) (by omega)
    cases ty
    · rfl
    · simp [jsDiv, ne_of_gt (show (0:ℚ) < (1 + r / 100 / 12) ^ (t * 12) - 1 by
        linarith)]

/-- Claim C6: mortgage edge cases.  A non-positive principal yields
`{payment := 0, interest := 0}` for every rate, term and type; a positive
principal at a zero annual rate yields the straight-line payment
`principal / (termYears * 12)` with zero interest; concretely,
`computePayment(100000, 0, 30, PI).payment = 100000 / 360`. -/
theorem C6_mortgage_edge_cases :
    (∀ (p r : ℚ) (t : ℕ) (ty : MortgageType), p ≤ 0 →
      _calculateMortgage p r t ty = { payment := 0, interest := 0 }) ∧
    (∀ (p : ℚ) (t : ℕ) (ty : MortgageType), 0 < p →
      _calculateMortgage p 0 t ty =
        { payment := p / ((t : ℚ) * 12), interest := 0 }) ∧
    (_calculateMortgage 100000 0 30 MortgageType.principalAndInterest).payment
      = 100000 / 360 := by
  refine ⟨fun p r t ty hp => by simp [_calculateMortgage, if_pos hp],
    fun p t ty hp => ?_, by norm_num [_calculateMortgage]⟩
  simp only [_calculateMortgage, if_neg (not_le.mpr hp), if_pos rfl]
  push_cast
  rfl

/-- Witness for C6 (which quantifies over hypotheses): evaluated at
`p = -5` for the first clause and `p = 100000, t = 30` for the second. -/
theorem C6_mortgage_edge_cases_witness :
    _calculateMortgage (-5) (13/2) 30 MortgageType.principalAndInterest
        = { payment := 0, interest := 0 } ∧
    _calculateMortgage 100000 0 30 MortgageType.interestOnly
        = { payment := (100000 : ℚ) / ((30 : ℚ) * 12), interest := 0 } :=
  ⟨C6_mortgage_edge_cases.1 (-5) (13/2) 30 MortgageType.principalAndInterest
      (by norm_num),
   C6_mortgage_edge_cases.2.1 100000 30 MortgageType.interestOnly (by norm_num)⟩

/-- Counterexample to Claim C5 as stated: at principal 0 (rate 6.5 %, term
30 years) the interest-only payment equals the principal-and-interest
payment (both are 0), so it is not strictly less — the claim needs a
positive principal. -/
theorem C5_counterexample :
    (_calculateMortgageJS 0 (13/2) 30 MortgageType.interestOnly).payment
        = JSNum.num 0 ∧
    (_calculateMortgageJS 0 (13/2) 30 MortgageType.principalAndInterest).payment
        = JSNum.num 0 ∧
    JSNum.ltB (_calculateMortgageJS 0 (13/2) 30 MortgageType.interestOnly).payment
      (_calculateMortgageJS 0 (13/2) 30 MortgageType.principalAndInterest).payment
        = false := by
  norm_num [_calculateMortgageJS, JSNum.ltB]

/-- Claim C5 (amended with a positive principal, as the counterexample
forces): for every term — including a zero term, where the
principal-and-interest payment is `Infinity` — the interest-only payment
equals the monthly interest-only amount `principal * rate/100/12` and is
strictly less (under the JS `<`) than the principal-and-interest
payment. -/
theorem C5_interestOnly_lt_annuity (p r : ℚ) (t : ℕ)
    (hp : 0 < p) (hr : 0 < r) :
    (_calculateMortgageJS p r t MortgageType.interestOnly).payment
        = JSNum.num (p * (r / 100 / 12)) ∧
    JSNum.ltB (_calculateMortgageJS p r t MortgageType.interestOnly).payment
      (_calculateMortgageJS p r t MortgageType.principalAndInterest).payment
        = true := by
  have hmr : 0 < r / 100 / 12 := by positivity
  have hmi : 0 < p * (r / 100 / 12) := by positivity
  constructor
  · simp [_calculateMortgageJS, if_neg (not_le.mpr hp), if_neg hr.ne']
  simp only [_calculateMortgageJS, if_neg (not_le.mpr hp), if_neg hr.ne']
  rcases Nat.eq_zero_or_pos t with ht | ht
  · subst ht
    simp only [Nat.zero_mul, pow_zero]
    norm_num [jsDiv, JSNum.ltB, hmi]
  · have hf : 1 < (1 + r / 100 / 12) ^ (t * 12) :=
      one_lt_pow₀ (by linarith) (by omega)
    have hne : (1 + r / 100 / 12) ^ (t * 12) - 1 ≠ 0 := ne_of_gt (by linarith)
    simp only [jsDiv, if_neg hne, JSNum.ltB, decide_eq_true_eq]
    exact monthlyInterest_lt_annuity hmi hf

/-- Witness for C5 at principal 100000, rate 6.5 %, term 30 years. -/
theorem C5_interestOnly_lt_annuity_witness :
    (_calculateMortgageJS 100000 (13/2) 30 MortgageType.interestOnly).payment
        = JSNum.num (100000 * ((13/2) / 100 / 12)) ∧
    JSNum.ltB
      (_calculateMortgageJS 100000 (13/2) 30 MortgageType.interestOnly).payment
      (_calculateMortgageJS 100000 (13/2) 30
        MortgageType.principalAndInterest).payment = true :=
  C5_interestOnly_lt_annuity 100000 (13/2) 30 (by norm_num) (by norm_num)

/-! ### Inflation adjustment -/

/-- The `INFLATION_RATES` table (`map_app.js` lines 13–20), year →
percentage rate; absent years give `none` (JS `undefined`). -/
def INFLATION_RATES : ℤ → Option ℚ := fun year =>
  if year = 2020 then some (9/10)
  else if year = 2021 then some (29/10)
  else if year = 2022 then some (66/10)
  else if year = 2023 then some (56/10)
  else if year = 2024 then some (316/100)
  else if year = 2025 then some (21/10)
  else none

/-- `_adjustForInflation` (`map_app.js` lines 205–213): for each year from
`baseYear + 1` up to and including `targetYear`, if the series has a rate
for that year, multiply by `(1 + rate/100)`.  The JS truthiness test
`if (inflationRates[year])` also skips a rate of exactly 0.  The result is
passed through `Math.round`. -/
def _adjustForInflation (baseValue : ℚ) (baseYear targetYear : ℤ)
    (inflationRates : ℤ → Option ℚ) : ℚ :=
  let years := (List.range (targetYear - baseYear).toNat).map
    (fun k => baseYear + 1 + (k : ℤ))
  let adjustedValue := years.foldl
    (fun adjusted year =>
      match inflationRates year with
      | some rate => if rate = 0 then adjusted else adjusted * (1 + rate / 100)
      | none => adjusted) baseValue
  jsRound adjustedValue

/-- Counterexample to Claim C9 as stated: with `targetYear ≤ baseYear` the
function does not return the base unchanged — it still applies
`Math.round`, so base 1/2 comes back as 1. -/
theorem C9_counterexample :
    _adjustForInflation (1/2) 2020 2019 INFLATION_RATES = 1 ∧
      ((1 : ℚ) ≠ 1/2) := by
  constructor
  · simp only [_adjustForInflation]
    rw [show ((2019 : ℤ) - 2020).toNat = 0 from rfl]
    norm_num [jsRound]
  · norm_num

/-- Claim C9 (amended): if `targetYear ≤ baseYear` no inflation factor is
applied and the function returns `Math.round base` — the base unchanged up
to the final integer rounding (hence unchanged whenever the base is an
integer). -/
theorem C9_adjust_noop_before_base (base : ℚ) (baseYear targetYear : ℤ)
    (series : ℤ → Option ℚ) (h : targetYear ≤ baseYear) :
    _adjustForInflation base baseYear targetYear series = jsRound base := by
  simp only [_adjustForInflation]
  rw [show (targetYear - baseYear).toNat = 0 from Int.toNat_of_nonpos (by linarith)]
  rfl

/-- Witness for C9 (amended) at base 46, years 2024 → 2020. -/
theorem C9_adjust_noop_before_base_witness :
    (2020 : ℤ) ≤ 2024 ∧
      _adjustForInflation 46 2024 2020 INFLATION_RATES = jsRound 46 :=
  ⟨by norm_num, C9_adjust_noop_before_base 46 2024 2020 INFLATION_RATES (by norm_num)⟩

/-! ### Affordability engine -/

/-- The three price points of the `pricePoint` selector. -/
inductive PricePoint where
  | q1
  | median
  | q3
deriving DecidableEq, Repr

/-- `this.housingType` (`map_app.js` line 88): `rent` or `buy`. -/
inductive HousingType where
  | rent
  | buy
deriving DecidableEq, Repr

/-- `this.depositType` (`map_app.js` line 89): `percent` or `amount`. -/
inductive DepositType where
  | percent
  | amount
deriving DecidableEq, Repr

/-- The raw per-postcode statistics of a record of `this.housingData`, as
parsed from the CSV: each field is a number or `null`/missing (`none`). -/
structure RawData where
  yearly_first_quartile_sales_000s : Option ℚ
  yearly_third_quartile_sales_000s : Option ℚ
  yearly_median_sales_price_000s : Option ℚ
  yearly_first_quartile_weekly_rent : Option ℚ
  yearly_third_quartile_weekly_rent : Option ℚ
  yearly_median_weekly_rent : Option ℚ
deriving DecidableEq, Repr

/-- A JavaScript field value as stored on a record: `undefined` (field
never assigned), `null`, a number, or a boolean. -/
inductive JSVal where
  | undef
  | null
  | num (x : JSNum)
  | bool (b : Bool)
deriving DecidableEq, Repr

/-- The extraction used when a computed field is handed to `_getColor`
(`_styleFeature`, `map_app.js` lines 545–554): a number passes through,
`null`/`undefined` become the no-value argument (both behave alike in
`_getColor`: `undefined != null` is false in JS, and `isNaN(undefined)`
is true, so both take the same branches a `null` takes). -/
def JSVal.toOptNum : JSVal → Option JSNum
  | JSVal.num x => some x
  | _ => none

/-- The engine-computed fields that `_updateAllAffordability` and
`_calculateQuartilePayments` write onto a record (`map_app.js` lines
455–512).  A fresh record has them all `undefined`. -/
structure ComputedFields where
  weekly_housing_cost : JSVal
  affordability_percentage : JSVal
  is_affordable : JSVal
  weekly_money_leftover : JSVal
  calculated_weekly_payment : JSVal
  calculated_weekly_interest : JSVal
  yearly_first_quartile_weekly_rent_payment : JSVal
  yearly_third_quartile_weekly_rent_payment : JSVal
  yearly_first_quartile_weekly_payment : JSVal
  yearly_third_quartile_weekly_payment : JSVal
deriving DecidableEq, Repr

/-- A record before any recompute: every engine-computed field undefined. -/
def noComputedFields : ComputedFields :=
  { weekly_housing_cost := JSVal.undef
    affordability_percentage := JSVal.undef
    is_affordable := JSVal.undef
    weekly_money_leftover := JSVal.undef
    calculated_weekly_payment := JSVal.undef
    calculated_weekly_interest := JSVal.undef
    yearly_first_quartile_weekly_rent_payment := JSVal.undef
    yearly_third_quartile_weekly_rent_payment := JSVal.undef
    yearly_first_quartile_weekly_payment := JSVal.undef
    yearly_third_quartile_weekly_payment := JSVal.undef }

/-- The values read from the form controls, after parsing.  `annualIncome`
keeps the full `parseFloat` result (a `JSNum`, possibly `NaN` or
`±Infinity`, e.g. for the input string `1e999`); the remaining numeric
fields model the already-defaulted `parseFloat(...) || d` reads
(`map_app.js` lines 386–402 and 441–444), assumed finite; `loanTerm` is a
whole number of years (see `_calculateMortgage`). -/
structure FormInputs where
  annualIncome : JSNum
  utilities : ℚ
  food : ℚ
  transport : ℚ
  other : ℚ
  strata : ℚ
  council : ℚ
  water : ℚ
  maintenance : ℚ
  depositPercent : ℚ
  depositAmount : ℚ
  interestRate : ℚ
  loanTerm : ℕ
  pricePoint : PricePoint
  housingType : HousingType
  depositType : DepositType
  mortgageType : MortgageType
deriving DecidableEq, Repr

/-- The record returned by `_getUserSettings` (`map_app.js` lines 404–411). -/
structure UserSettings where
  grossIncome : ℚ
  netIncome : ℚ
  weeklyNetIncome : ℚ
  weeklyGrossIncome : ℚ
  weeklyLivingCosts : ℚ
  weeklyOwnerCosts : ℚ
deriving DecidableEq, Repr

/-- `_getUserSettings` (`map_app.js` lines 385–412).  The income field is
read as `parseFloat(...) || 0` (NaN and 0 fall back to 0, `±Infinity`
passes through) and fed to `_convertNetToGross`, whose `Number.isFinite`
guard throws on a non-finite value — modelled by the `Except.error`
branch.  The cost fields are summed into weekly living and owner costs. -/
def _getUserSettings (f : FormInputs) : Except TaxError UserSettings :=
  match JSNum.orDefault f.annualIncome 0 with
  | JSNum.num householdNetIncome =>
      let householdGrossIncome := _convertNetToGross householdNetIncome
      Except.ok
        { grossIncome := householdGrossIncome
          netIncome := householdNetIncome
          weeklyNetIncome := householdNetIncome / 52
          weeklyGrossIncome := householdGrossIncome / 52
          weeklyLivingCosts := f.utilities + f.food + f.transport + f.other
          weeklyOwnerCosts := f.strata + f.council + f.water + f.maintenance }
  | _ => Except.error TaxError.invalidInput

/-- Price-point selection of the sales price (`map_app.js` lines 422–432):
`(data.yearly_..._sales_000s || 0) * 1000`. -/
def selectSalesPrice (pp : PricePoint) (data : RawData) : ℚ :=
  match pp with
  | PricePoint.q1 => (data.yearly_first_quartile_sales_000s.getD 0) * 1000
  | PricePoint.q3 => (data.yearly_third_quartile_sales_000s.getD 0) * 1000
  | PricePoint.median => (data.yearly_median_sales_price_000s.getD 0) * 1000

/-- Price-point selection of the weekly rent (`map_app.js` lines 422–432):
the raw field, which may be missing. -/
def selectRent (pp : PricePoint) (data : RawData) : Option ℚ :=
  match pp with
  | PricePoint.q1 => data.yearly_first_quartile_weekly_rent
  | PricePoint.q3 => data.yearly_third_quartile_weekly_rent
  | PricePoint.median => data.yearly_median_weekly_rent

/-- The branch structure of the loop body of `_updateAllAffordability`
(`map_app.js` lines 434–459), producing `(weeklyHousingCost,
affordabilityPercentage, buy-branch extras)`.  The JS guard
`rent && rent > 0` (truthy and positive) is exactly `0 < rent.getD 0`,
and `salesPrice && salesPrice > 0` is `0 < salesPrice`.  The percentage
is `(weeklyHousingCost / weeklyGrossIncome) * 100` with JS division
semantics (`jsDiv`), so a zero gross income produces `Infinity` (or `NaN`
for `0 / 0`).  The optional third component carries the
`calculated_weekly_payment` / `calculated_weekly_interest` values that
lines 457–458 assign only inside the buy branch. -/
def affordabilityStep (f : FormInputs) (userSettings : UserSettings)
    (data : RawData) : ℚ × JSNum × Option (ℚ × ℚ) :=
  let weeklyGrossIncome := userSettings.weeklyGrossIncome
  let salesPrice := selectSalesPrice f.pricePoint data
  let rent := selectRent f.pricePoint data
  if f.housingType = HousingType.rent ∧ 0 < rent.getD 0 then
    let weeklyHousingCost := rent.getD 0
    (weeklyHousingCost,
      jsMulPos (jsDiv weeklyHousingCost weeklyGrossIncome) 100, none)
  else if f.housingType = HousingType.buy ∧ 0 < salesPrice then
    let actualDeposit :=
      if f.depositType = DepositType.percent
      then salesPrice * (f.depositPercent / 100)
      else f.depositAmount
    let loanAmount := max 0 (salesPrice - actualDeposit)
    let mortgage :=
      _calculateMortgage loanAmount f.interestRate f.loanTerm f.mortgageType
    let weeklyMortgagePayment := mortgage.payment * 12 / 52
    let weeklyHousingCost := weeklyMortgagePayment + userSettings.weeklyOwnerCosts
    (weeklyHousingCost,
      jsMulPos (jsDiv weeklyHousingCost weeklyGrossIncome) 100,
      some (weeklyMortgagePayment, mortgage.interest * 12 / 52))
  else (0, JSNum.num 0, none)

/-- The mortgage-inclusive weekly payment used by
`_calculateQuartilePayments` for a positive quartile sales price
(`map_app.js` lines 480–492 and 497–509): deposit, loan, mortgage, then
`payment * 12 / 52 + weeklyOwnerCosts`. -/
def quartilePayment (f : FormInputs) (userSettings : UserSettings)
    (sales : ℚ) : ℚ :=
  let actualDeposit :=
    if f.depositType = DepositType.percent
    then sales * (f.depositPercent / 100)
    else f.depositAmount
  let loan := max 0 (sales - actualDeposit)
  let mortgage := _calculateMortgage loan f.interestRate f.loanTerm f.mortgageType
  mortgage.payment * 12 / 52 + userSettings.weeklyOwnerCosts

/-- `_calculateQuartilePayments` (`map_app.js` lines 473–513): copies the
raw quartile rents into the `..._rent_payment` fields and computes the
quartile weekly payments (`null` when the quartile sales price is not
positive). -/
def _calculateQuartilePayments (f : FormInputs) (userSettings : UserSettings)
    (data : RawData) (c : ComputedFields) : ComputedFields :=
  let c :=
    { c with
      yearly_first_quartile_weekly_rent_payment :=
        (data.yearly_first_quartile_weekly_rent.elim JSVal.null
          (fun r => JSVal.num (JSNum.num r)))
      yearly_third_quartile_weekly_rent_payment :=
        (data.yearly_third_quartile_weekly_rent.elim JSVal.null
          (fun r => JSVal.num (JSNum.num r))) }
  let q1Sales := (data.yearly_first_quartile_sales_000s.getD 0) * 1000
  let q3Sales := (data.yearly_third_quartile_sales_000s.getD 0) * 1000
  let c :=
    if 0 < q1Sales then
      { c with yearly_first_quartile_weekly_payment :=
          JSVal.num (JSNum.num (quartilePayment f userSettings q1Sales)) }
    else { c with yearly_first_quartile_weekly_payment := JSVal.null }
  if 0 < q3Sales then
    { c with yearly_third_quartile_weekly_payment :=
        JSVal.num (JSNum.num (quartilePayment f userSettings q3Sales)) }
  else { c with yearly_third_quartile_weekly_payment := JSVal.null }

/-- One iteration of the loop of `_updateAllAffordability` (`map_app.js`
lines 419–470): the branch computation, the unconditional field writes
(lines 461–467), the buy-branch-only writes of
`calculated_weekly_payment` / `calculated_weekly_interest` (lines
457–458, which otherwise keep their previous values), and the trailing
`_calculateQuartilePayments` call (line 469). -/
def updateRecord (f : FormInputs) (userSettings : UserSettings)
    (data : RawData) (c : ComputedFields) : ComputedFields :=
  let step := affordabilityStep f userSettings data
  let weeklyHousingCost := step.1
  let affordabilityPercentage := step.2.1
  let weeklyAfterExpenses :=
    userSettings.weeklyNetIncome - userSettings.weeklyLivingCosts
  _calculateQuartilePayments f userSettings data
    { c with
      calculated_weekly_payment :=
        match step.2.2 with
        | some extras => JSVal.num (JSNum.num extras.1)
        | none => c.calculated_weekly_payment
      calculated_weekly_interest :=
        match step.2.2 with
        | some extras => JSVal.num (JSNum.num extras.2)
        | none => c.calculated_weekly_interest
      weekly_housing_cost := JSVal.num (JSNum.num weeklyHousingCost)
      affordability_percentage := JSVal.num affordabilityPercentage
      is_affordable :=
        JSVal.bool (JSNum.leB affordabilityPercentage (JSNum.num 30))
      weekly_money_leftover :=
        if 0 < weeklyHousingCost then
          JSVal.num (JSNum.num (weeklyAfterExpenses - weeklyHousingCost))
        else JSVal.null }

/-- `_updateAllAffordability` (`map_app.js` lines 414–471): read the user
settings once (which can throw on a non-finite income — the `Except.error`
result), then rewrite the computed fields of every record. -/
def _updateAllAffordability (f : FormInputs)
    (housingData : List (RawData × ComputedFields)) :
    Except TaxError (List (RawData × ComputedFields)) :=
  match _getUserSettings f with
  | Except.error e => Except.error e
  | Except.ok userSettings =>
      Except.ok (housingData.map
        (fun dc => (dc.1, updateRecord f userSettings dc.1 dc.2)))

/-! ### Colour classification -/

/-- `_getColor` (`map_app.js` lines 535–543), on a possibly-missing
percentage and leftover.  Priority: a present negative leftover is black;
then a missing, `NaN` or exactly-zero percentage is grey (no data); then
the 20 / 30 / 40 / 50 thresholds. -/
def _getColor (percentage weeklyMoneyLeftover : Option JSNum) : String :=
  if (weeklyMoneyLeftover.elim false (fun l => l.ltB (JSNum.num 0))) = true then
    "#000000"
  else if (percentage.elim true
      (fun p => p.isNaN || p.eqB (JSNum.num 0))) = true then "#ccc"
  else if (percentage.elim false (fun p => p.leB (JSNum.num 20))) = true then
    "#16a34a"
  else if (percentage.elim false (fun p => p.leB (JSNum.num 30))) = true then
    "#22c55e"
  else if (percentage.elim false (fun p => p.leB (JSNum.num 40))) = true then
    "#fbbf24"
  else if (percentage.elim false (fun p => p.leB (JSNum.num 50))) = true then
    "#f97316"
  else "#ef4444"

/-- The severity buckets named by the specification (§4.5). -/
inductive Bucket where
  | Critical
  | NoData
  | VeryAffordable
  | Affordable
  | Moderate
  | High
  | Severe
deriving DecidableEq, Repr

/-- Modelled from the spec (§4.5): `classify(percentage, leftover)` with
the stated priority order — non-null negative leftover is `Critical`
regardless of percentage; then null/`NaN`/zero percentage is `NoData`;
then `≤ 20` `VeryAffordable`, `≤ 30` `Affordable`, `≤ 40` `Moderate`,
`≤ 50` `High`, else `Severe`. -/
def classify (percentage leftover : Option JSNum) : Bucket :=
  if (leftover.elim false (fun l => l.ltB (JSNum.num 0))) = true then
    Bucket.Critical
  else if (percentage.elim true
      (fun p => p.isNaN || p.eqB (JSNum.num 0))) = true then Bucket.NoData
  else if (percentage.elim false (fun p => p.leB (JSNum.num 20))) = true then
    Bucket.VeryAffordable
  else if (percentage.elim false (fun p => p.leB (JSNum.num 30))) = true then
    Bucket.Affordable
  else if (percentage.elim false (fun p => p.leB (JSNum.num 40))) = true then
    Bucket.Moderate
  else if (percentage.elim false (fun p => p.leB (JSNum.num 50))) = true then
    Bucket.High
  else Bucket.Severe

/-- The hex colour `_getColor` uses for each of the spec's buckets. -/
def bucketColor : Bucket → String
  | Bucket.Critical => "#000000"
  | Bucket.NoData => "#ccc"
  | Bucket.VeryAffordable => "#16a34a"
  | Bucket.Affordable => "#22c55e"
  | Bucket.Moderate => "#fbbf24"
  | Bucket.High => "#f97316"
  | Bucket.Severe => "#ef4444"

/-- Claim C4: `_getColor` implements exactly the spec's priority order and
thresholds (`bucketColor ∘ classify`) for every percentage and leftover;
in particular a percentage of 25 with leftover −10 classifies as
`Critical`, and a zero percentage with no leftover classifies as
`NoData`. -/
theorem C4_color_classifier (percentage leftover : Option JSNum) :
    _getColor percentage leftover = bucketColor (classify percentage leftover) ∧
    _getColor (some (JSNum.num 25)) (some (JSNum.num (-10)))
      = bucketColor Bucket.Critical ∧
    _getColor (some (JSNum.num 0)) none = bucketColor Bucket.NoData := by
  refine ⟨?_, ?_, ?_⟩
  · simp only [_getColor, classify]
    split_ifs <;> rfl
  · norm_num [_getColor, bucketColor, JSNum.ltB]
  · norm_num [_getColor, bucketColor, JSNum.isNaN, JSNum.eqB]

/-! ### How the computed fields depend on the previous record state -/

theorem calculateQuartilePayments_preserves (f : FormInputs) (us : UserSettings)
    (data : RawData) (c : ComputedFields) :
    (_calculateQuartilePayments f us data c).weekly_housing_cost = c.weekly_housing_cost ∧
    (_calculateQuartilePayments f us data c).affordability_percentage = c.affordability_percentage ∧
    (_calculateQuartilePayments f us data c).is_affordable = c.is_affordable ∧
    (_calculateQuartilePayments f us data c).weekly_money_leftover = c.weekly_money_leftover ∧
    (_calculateQuartilePayments f us data c).calculated_weekly_payment = c.calculated_weekly_payment ∧
    (_calculateQuartilePayments f us data c).calculated_weekly_interest = c.calculated_weekly_interest := by
  simp only [_calculateQuartilePayments]
  split_ifs <;> exact ⟨rfl, rfl, rfl, rfl, rfl, rfl⟩

theorem calculateQuartilePayments_q1_rent (f : FormInputs) (us : UserSettings)
    (data : RawData) (c : ComputedFields) :
    (_calculateQuartilePayments f us data c).yearly_first_quartile_weekly_rent_payment
      = data.yearly_first_quartile_weekly_rent.elim JSVal.null
          (fun r => JSVal.num (JSNum.num r)) := by
  simp only [_calculateQuartilePayments]
  split_ifs <;> rfl

theorem calculateQuartilePayments_q3_rent (f : FormInputs) (us : UserSettings)
    (data : RawData) (c : ComputedFields) :
    (_calculateQuartilePayments f us data c).yearly_third_quartile_weekly_rent_payment
      = data.yearly_third_quartile_weekly_rent.elim JSVal.null
          (fun r => JSVal.num (JSNum.num r)) := by
  simp only [_calculateQuartilePayments]
  split_ifs <;> rfl

theorem calculateQuartilePayments_q1_payment (f : FormInputs) (us : UserSettings)
    (data : RawData) (c : ComputedFields) :
    (_calculateQuartilePayments f us data c).yearly_first_quartile_weekly_payment
      = (if 0 < (data.yearly_first_quartile_sales_000s.getD 0) * 1000 then
          JSVal.num (JSNum.num (quartilePayment f us
            ((data.yearly_first_quartile_sales_000s.getD 0) * 1000)))
        else JSVal.null) := by
  simp only [_calculateQuartilePayments]
  split_ifs <;> rfl

theorem calculateQuartilePayments_q3_payment (f : FormInputs) (us : UserSettings)
    (data : RawData) (c : ComputedFields) :
    (_calculateQuartilePayments f us data c).yearly_third_quartile_weekly_payment
      = (if 0 < (data.yearly_third_quartile_sales_000s.getD 0) * 1000 then
          JSVal.num (JSNum.num (quartilePayment f us
            ((data.yearly_third_quartile_sales_000s.getD 0) * 1000)))
        else JSVal.null) := by
  simp only [_calculateQuartilePayments]
  split_ifs <;> rfl

theorem calculateQuartilePayments_congr (f : FormInputs) (us : UserSettings)
    (data : RawData) {x₁ x₂ : ComputedFields}
    (h1 : x₁.weekly_housing_cost = x₂.weekly_housing_cost)
    (h2 : x₁.affordability_percentage = x₂.affordability_percentage)
    (h3 : x₁.is_affordable = x₂.is_affordable)
    (h4 : x₁.weekly_money_leftover = x₂.weekly_money_leftover)
    (h5 : x₁.calculated_weekly_payment = x₂.calculated_weekly_payment)
    (h6 : x₁.calculated_weekly_interest = x₂.calculated_weekly_interest) :
    _calculateQuartilePayments f us data x₁ = _calculateQuartilePayments f us data x₂ := by
  cases x₁
  cases x₂
  dsimp only at h1 h2 h3 h4 h5 h6
  subst h1 h2 h3 h4 h5 h6
  simp only [_calculateQuartilePayments]
  split_ifs <;> rfl

theorem updateRecord_weekly_housing_cost (f : FormInputs) (us : UserSettings)
    (data : RawData) (c : ComputedFields) :
    (updateRecord f us data c).weekly_housing_cost
      = JSVal.num (JSNum.num (affordabilityStep f us data).1) := by
  simp only [updateRecord]
  exact (calculateQuartilePayments_preserves f us data _).1

theorem updateRecord_affordability_percentage (f : FormInputs) (us : UserSettings)
    (data : RawData) (c : ComputedFields) :
    (updateRecord f us data c).affordability_percentage
      = JSVal.num (affordabilityStep f us data).2.1 := by
  simp only [updateRecord]
  exact (calculateQuartilePayments_preserves f us data _).2.1

theorem updateRecord_is_affordable (f : FormInputs) (us : UserSettings)
    (data : RawData) (c : ComputedFields) :
    (updateRecord f us data c).is_affordable
      = JSVal.bool (JSNum.leB (affordabilityStep f us data).2.1 (JSNum.num 30)) := by
  simp only [updateRecord]
  exact (calculateQuartilePayments_preserves f us data _).2.2.1

theorem updateRecord_weekly_money_leftover (f : FormInputs) (us : UserSettings)
    (data : RawData) (c : ComputedFields) :
    (updateRecord f us data c).weekly_money_leftover
      = (if 0 < (affordabilityStep f us data).1 then
          JSVal.num (JSNum.num (us.weeklyNetIncome - us.weeklyLivingCosts
            - (affordabilityStep f us data).1))
        else JSVal.null) := by
  simp only [updateRecord]
  exact (calculateQuartilePayments_preserves f us data _).2.2.2.1

theorem updateRecord_calculated_payment (f : FormInputs) (us : UserSettings)
    (data : RawData) (c : ComputedFields) :
    (updateRecord f us data c).calculated_weekly_payment
      = (match (affordabilityStep f us data).2.2 with
         | some extras => JSVal.num (JSNum.num extras.1)
         | none => c.calculated_weekly_payment) := by
  simp only [updateRecord]
  exact (calculateQuartilePayments_preserves f us data _).2.2.2.2.1

theorem updateRecord_calculated_interest (f : FormInputs) (us : UserSettings)
    (data : RawData) (c : ComputedFields) :
    (updateRecord f us data c).calculated_weekly_interest
      = (match (affordabilityStep f us data).2.2 with
         | some extras => JSVal.num (JSNum.num extras.2)
         | none => c.calculated_weekly_interest) := by
  simp only [updateRecord]
  exact (calculateQuartilePayments_preserves f us data _).2.2.2.2.2

theorem affordabilityStep_buy (f : FormInputs) (us : UserSettings) (data : RawData)
    (hb : f.housingType = HousingType.buy)
    (hp : 0 < selectSalesPrice f.pricePoint data) :
    ∃ extras, (affordabilityStep f us data).2.2 = some extras := by
  simp only [affordabilityStep]
  rw [if_neg ?_, if_pos ⟨hb, hp⟩]
  · exact ⟨_, rfl⟩
  · rintro ⟨hr, -⟩
    rw [hb] at hr
    exact HousingType.noConfusion hr

/-! ### Concrete scenarios -/

/-- Form state with an (empty or zero) income field, rent mode, default
mortgage settings, all living-cost fields zero. -/
def zeroIncomeForm : FormInputs :=
  { annualIncome := JSNum.num 0
    utilities := 0, food := 0, transport := 0, other := 0
    strata := 0, council := 0, water := 0, maintenance := 0
    depositPercent := 20, depositAmount := 0
    interestRate := 13/2, loanTerm := 30
    pricePoint := PricePoint.median
    housingType := HousingType.rent
    depositType := DepositType.percent
    mortgageType := MortgageType.principalAndInterest }

/-- The user settings `_getUserSettings` derives from `zeroIncomeForm`. -/
def zeroUserSettings : UserSettings :=
  { grossIncome := 0, netIncome := 0, weeklyNetIncome := 0
    weeklyGrossIncome := 0, weeklyLivingCosts := 0, weeklyOwnerCosts := 0 }

/-- A postcode record with a median weekly rent of 450 and no sales data. -/
def rentOnlyRecord : RawData :=
  { yearly_first_quartile_sales_000s := none
    yearly_third_quartile_sales_000s := none
    yearly_median_sales_price_000s := none
    yearly_first_quartile_weekly_rent := none
    yearly_third_quartile_weekly_rent := none
    yearly_median_weekly_rent := some 450 }

/-- A record state left over from an earlier buy-mode recompute: a stale
`calculated_weekly_payment` of 1. -/
def staleComputed : ComputedFields :=
  { noComputedFields with calculated_weekly_payment := JSVal.num (JSNum.num 1) }

/-- Counterexample to Claim C3 as stated: running `_updateAllAffordability`
in rent mode over the same raw data and settings, but from two different
prior computed-field states, yields different `calculated_weekly_payment`
values — the stale value 1 from the earlier run survives. -/
theorem C3_counterexample :
    (Except.map (fun out => out.map
        (fun dc : RawData × ComputedFields => dc.2.calculated_weekly_payment))
      (_updateAllAffordability zeroIncomeForm [(rentOnlyRecord, staleComputed)]))
      = Except.ok [JSVal.num (JSNum.num 1)] ∧
    (Except.map (fun out => out.map
        (fun dc : RawData × ComputedFields => dc.2.calculated_weekly_payment))
      (_updateAllAffordability zeroIncomeForm [(rentOnlyRecord, noComputedFields)]))
      = Except.ok [JSVal.undef] ∧
    JSVal.num (JSNum.num 1) ≠ JSVal.undef := by
  refine ⟨?_, ?_, by simp⟩ <;>
    norm_num [_updateAllAffordability, _getUserSettings, JSNum.orDefault,
      _convertNetToGross, zeroIncomeForm, zeroUserSettings, rentOnlyRecord,
      staleComputed, noComputedFields, updateRecord, affordabilityStep,
      selectRent, selectSalesPrice, _calculateQuartilePayments, quartilePayment,
      _calculateMortgage, jsDiv, jsMulPos, JSNum.leB, Except.map]

/-- Claim C3 (amended): one loop iteration of `_updateAllAffordability` is
a function of the raw record and the current settings for every computed
field except the two buy-branch extras — `weekly_housing_cost`,
`affordability_percentage`, `is_affordable`, `weekly_money_leftover` and
the four quartile fields never depend on the prior state; in buy mode with
a positive selected sales price the whole record is overwritten (the two
runs coincide completely); otherwise `calculated_weekly_payment` and
`calculated_weekly_interest` retain their previous — possibly stale —
values. -/
theorem C3_full_overwrite_except_buy_extras (f : FormInputs) (us : UserSettings)
    (data : RawData) (c₁ c₂ : ComputedFields) :
    (f.housingType = HousingType.buy → 0 < selectSalesPrice f.pricePoint data →
      updateRecord f us data c₁ = updateRecord f us data c₂) ∧
    (updateRecord f us data c₁).weekly_housing_cost
      = (updateRecord f us data c₂).weekly_housing_cost ∧
    (updateRecord f us data c₁).affordability_percentage
      = (updateRecord f us data c₂).affordability_percentage ∧
    (updateRecord f us data c₁).is_affordable
      = (updateRecord f us data c₂).is_affordable ∧
    (updateRecord f us data c₁).weekly_money_leftover
      = (updateRecord f us data c₂).weekly_money_leftover ∧
    (updateRecord f us data c₁).yearly_first_quartile_weekly_rent_payment
      = (updateRecord f us data c₂).yearly_first_quartile_weekly_rent_payment ∧
    (updateRecord f us data c₁).yearly_third_quartile_weekly_rent_payment
      = (updateRecord f us data c₂).yearly_third_quartile_weekly_rent_payment ∧
    (updateRecord f us data c₁).yearly_first_quartile_weekly_payment
      = (updateRecord f us data c₂).yearly_first_quartile_weekly_payment ∧
    (updateRecord f us data c₁).yearly_third_quartile_weekly_payment
      = (updateRecord f us data c₂).yearly_third_quartile_weekly_payment ∧
    ((affordabilityStep f us data).2.2 = none →
      (updateRecord f us data c₁).calculated_weekly_payment
          = c₁.calculated_weekly_payment ∧
      (updateRecord f us data c₂).calculated_weekly_payment
          = c₂.calculated_weekly_payment ∧
      (updateRecord f us data c₁).calculated_weekly_interest
          = c₁.calculated_weekly_interest ∧
      (updateRecord f us data c₂).calculated_weekly_interest
          = c₂.calculated_weekly_interest) := by
  refine ⟨?_, ?_, ?_, ?_, ?_, ?_, ?_, ?_, ?_, ?_⟩
  · intro hb hp
    obtain ⟨extras, he⟩ := affordabilityStep_buy f us data hb hp
    simp only [updateRecord, he]
    exact calculateQuartilePayments_congr f us data rfl rfl rfl rfl rfl rfl
  · rw [updateRecord_weekly_housing_cost f us data c₁,
      updateRecord_weekly_housing_cost f us data c₂]
  · rw [updateRecord_affordability_percentage f us data c₁,
      updateRecord_affordability_percentage f us data c₂]
  · rw [updateRecord_is_affordable f us data c₁,
      updateRecord_is_affordable f us data c₂]
  · rw [updateRecord_weekly_money_leftover f us data c₁,
      updateRecord_weekly_money_leftover f us data c₂]
  · simp only [updateRecord]
    rw [calculateQuartilePayments_q1_rent, calculateQuartilePayments_q1_rent]
  · simp only [updateRecord]
    rw [calculateQuartilePayments_q3_rent, calculateQuartilePayments_q3_rent]
  · simp only [updateRecord]
    rw [calculateQuartilePayments_q1_payment, calculateQuartilePayments_q1_payment]
  · simp only [updateRecord]
    rw [calculateQuartilePayments_q3_payment, calculateQuartilePayments_q3_payment]
  · intro he
    refine ⟨?_, ?_, ?_, ?_⟩ <;>
      simp only [updateRecord_calculated_payment, updateRecord_calculated_interest, he]

/-- Buy-mode variant of the form state. -/
def buyForm : FormInputs :=
  { zeroIncomeForm with housingType := HousingType.buy }

/-- A postcode record with a median sales price of 800 k. -/
def saleRecord : RawData :=
  { rentOnlyRecord with yearly_median_sales_price_000s := some 800 }

/-- Witness for C3 (amended), discharging its buy-mode hypotheses at a
concrete record: with a positive median sales price the two runs coincide
completely. -/
theorem C3_full_overwrite_except_buy_extras_witness :
    buyForm.housingType = HousingType.buy ∧
    (0:ℚ) < selectSalesPrice buyForm.pricePoint saleRecord ∧
    updateRecord buyForm zeroUserSettings saleRecord noComputedFields
      = updateRecord buyForm zeroUserSettings saleRecord staleComputed :=
  ⟨rfl,
   by norm_num [selectSalesPrice, buyForm, saleRecord, rentOnlyRecord, zeroIncomeForm],
   (C3_full_overwrite_except_buy_extras buyForm zeroUserSettings saleRecord
      noComputedFields staleComputed).1 rfl
    (by norm_num [selectSalesPrice, buyForm, saleRecord, rentOnlyRecord, zeroIncomeForm])⟩

theorem affordabilityStep_zero_gross (f : FormInputs) (us : UserSettings)
    (data : RawData) (hg : us.weeklyGrossIncome = 0) :
    ((affordabilityStep f us data).1 = 0 →
      (affordabilityStep f us data).2.1 = JSNum.num 0 ∨
        (affordabilityStep f us data).2.1 = JSNum.nan) ∧
    (0 < (affordabilityStep f us data).1 →
      (affordabilityStep f us data).2.1 = JSNum.posInf) := by
  simp only [affordabilityStep, hg]
  split_ifs with h1 h2 h3
  · constructor
    · intro h0
      dsimp only at h0
      exact absurd h0 (ne_of_gt h1.2)
    · intro hp
      dsimp only
      simp [jsDiv, jsMulPos, h1.2]
  · constructor
    · intro h0
      dsimp only at h0 ⊢
      rw [h0]
      right
      simp [jsDiv, jsMulPos]
    · intro hp
      dsimp only at hp ⊢
      simp [jsDiv, jsMulPos, hp]
  · constructor
    · intro h0
      dsimp only at h0 ⊢
      rw [h0]
      right
      simp [jsDiv, jsMulPos]
    · intro hp
      dsimp only at hp ⊢
      simp [jsDiv, jsMulPos, hp]
  · constructor
    · intro h0
      left
      rfl
    · intro hp
      dsimp only at hp
      exact absurd hp (lt_irrefl (0:ℚ))

/-- Claim C2 (amended): with a zero weekly gross income the per-record
computation never crashes, but its result is not always `NoData`: when the
record yields no housing cost the percentage stays 0 (or is `NaN` for a
degenerate zero-cost buy) and the classification is the no-data grey; when
the record yields a positive housing cost the percentage becomes
`Infinity`, which propagates into `is_affordable` (false) and into the
colour classification — black (`Critical`) or red (`Severe`), never the
no-data grey. -/
theorem C2_zero_gross_income (f : FormInputs) (us : UserSettings)
    (data : RawData) (c : ComputedFields) (hg : us.weeklyGrossIncome = 0) :
    ((affordabilityStep f us data).1 = 0 →
      _getColor (updateRecord f us data c).affordability_percentage.toOptNum
        (updateRecord f us data c).weekly_money_leftover.toOptNum = "#ccc") ∧
    (0 < (affordabilityStep f us data).1 →
      (updateRecord f us data c).affordability_percentage
          = JSVal.num JSNum.posInf ∧
      (updateRecord f us data c).is_affordable = JSVal.bool false ∧
      (_getColor (updateRecord f us data c).affordability_percentage.toOptNum
          (updateRecord f us data c).weekly_money_leftover.toOptNum = "#000000" ∨
       _getColor (updateRecord f us data c).affordability_percentage.toOptNum
          (updateRecord f us data c).weekly_money_leftover.toOptNum = "#ef4444") ∧
      _getColor (updateRecord f us data c).affordability_percentage.toOptNum
          (updateRecord f us data c).weekly_money_leftover.toOptNum ≠ "#ccc") := by
  obtain ⟨hz, hpos⟩ := affordabilityStep_zero_gross f us data hg
  constructor
  · intro h0
    rw [updateRecord_affordability_percentage, updateRecord_weekly_money_leftover,
      if_neg (by rw [h0]; exact lt_irrefl (0:ℚ))]
    rcases hz h0 with hp | hp <;>
      simp [hp, _getColor, JSVal.toOptNum, JSNum.isNaN, JSNum.eqB]
  · intro hp0
    have hp := hpos hp0
    rw [updateRecord_affordability_percentage, updateRecord_is_affordable,
      updateRecord_weekly_money_leftover, if_pos hp0, hp]
    refine ⟨rfl, rfl, ?_, ?_⟩
    · rcases lt_or_le (us.weeklyNetIncome - us.weeklyLivingCosts
          - (affordabilityStep f us data).1) 0 with hl | hl
      · left
        simp [_getColor, JSVal.toOptNum, JSNum.ltB, hl]
      · right
        simp only [_getColor, JSVal.toOptNum, JSNum.ltB, JSNum.isNaN, JSNum.eqB,
          JSNum.leB, Option.elim]
        simp
        linarith
    · rcases lt_or_le (us.weeklyNetIncome - us.weeklyLivingCosts
          - (affordabilityStep f us data).1) 0 with hl | hl
      · simp [_getColor, JSVal.toOptNum, JSNum.ltB, hl]
      · simp [_getColor, JSVal.toOptNum, JSNum.ltB, JSNum.isNaN, JSNum.eqB,
          JSNum.leB]
        split_ifs <;> simp

/-- Witness for C2 (amended) at the concrete zero-income, rent-450
scenario: the positive-housing-cost hypothesis is discharged and the
percentage is `Infinity`. -/
theorem C2_zero_gross_income_witness :
    zeroUserSettings.weeklyGrossIncome = 0 ∧
    (0:ℚ) < (affordabilityStep zeroIncomeForm zeroUserSettings rentOnlyRecord).1 ∧
    (updateRecord zeroIncomeForm zeroUserSettings rentOnlyRecord
        noComputedFields).affordability_percentage = JSVal.num JSNum.posInf :=
  ⟨rfl,
   by norm_num [affordabilityStep, selectRent, selectSalesPrice,
     zeroIncomeForm, zeroUserSettings, rentOnlyRecord],
   ((C2_zero_gross_income zeroIncomeForm zeroUserSettings rentOnlyRecord
      noComputedFields rfl).2
    (by norm_num [affordabilityStep, selectRent, selectSalesPrice,
      zeroIncomeForm, zeroUserSettings, rentOnlyRecord])).1⟩

/-- Counterexample to Claim C2 as stated: with a zero gross income and a
median rent of 450, the computed percentage is `Infinity` — the special
value does flow into the downstream comparisons (`is_affordable` is
computed as `Infinity <= 30`), and the classification is black
(`Critical`, because the leftover is −450), not the "no data" grey. -/
theorem C2_counterexample :
    _getUserSettings zeroIncomeForm = Except.ok zeroUserSettings ∧
    (updateRecord zeroIncomeForm zeroUserSettings rentOnlyRecord
        noComputedFields).affordability_percentage = JSVal.num JSNum.posInf ∧
    (updateRecord zeroIncomeForm zeroUserSettings rentOnlyRecord
        noComputedFields).is_affordable = JSVal.bool false ∧
    _getColor
      (updateRecord zeroIncomeForm zeroUserSettings rentOnlyRecord
        noComputedFields).affordability_percentage.toOptNum
      (updateRecord zeroIncomeForm zeroUserSettings rentOnlyRecord
        noComputedFields).weekly_money_leftover.toOptNum = "#000000" ∧
    "#000000" ≠ "#ccc" := by
  refine ⟨?_, ?_, ?_, ?_, by simp⟩ <;>
    norm_num [_getUserSettings, JSNum.orDefault, _convertNetToGross,
      zeroIncomeForm, zeroUserSettings, rentOnlyRecord, noComputedFields,
      updateRecord, affordabilityStep, selectRent, selectSalesPrice,
      _calculateQuartilePayments, quartilePayment, _calculateMortgage,
      jsDiv, jsMulPos, JSNum.leB, JSNum.ltB, JSNum.isNaN, JSNum.eqB,
      JSVal.toOptNum, _getColor]

/-- Form state whose income field parses to `Infinity` (e.g. the input
string `1e999`). -/
def infinityIncomeForm : FormInputs :=
  { zeroIncomeForm with annualIncome := JSNum.posInf }

/-- Counterexample to Claim C8 as stated: the coercion `parseFloat(...) || 0`
does not make the income finite — `Infinity` is truthy and passes through —
so `_convertNetToGross` throws and the error propagates out of the whole
`_updateAllAffordability` pass. -/
theorem C8_counterexample :
    JSNum.orDefault JSNum.posInf 0 = JSNum.posInf ∧
    _updateAllAffordability infinityIncomeForm [(rentOnlyRecord, noComputedFields)]
      = Except.error TaxError.invalidInput := by
  constructor
  · rfl
  · rfl

/-- Claim C8 (amended): the tax conversions fail with `InvalidInput`
exactly on a non-finite argument; the income coercion `parseFloat(...) || 0`
replaces only `NaN` (and 0) by 0, so `_updateAllAffordability` propagates
the error exactly when the parsed income is `±Infinity`, and completes for
every other (finite or `NaN`) income and every record list. -/
theorem C8_invalidInput_iff :
    (∀ x : JSNum, _convertNetToGrossJS x = Except.error TaxError.invalidInput
      ↔ x.isFinite = false) ∧
    (∀ x : JSNum, _calculateNetIncomeJS x = Except.error TaxError.invalidInput
      ↔ x.isFinite = false) ∧
    (∀ (f : FormInputs) (recs : List (RawData × ComputedFields)),
      _updateAllAffordability f recs = Except.error TaxError.invalidInput
        ↔ (f.annualIncome = JSNum.posInf ∨ f.annualIncome = JSNum.negInf)) := by
  refine ⟨fun x => ?_, fun x => ?_, fun f recs => ?_⟩
  · cases x <;> simp [_convertNetToGrossJS, JSNum.isFinite]
  · cases x <;> simp [_calculateNetIncomeJS, JSNum.isFinite]
  · cases hx : f.annualIncome <;>
      simp [_updateAllAffordability, _getUserSettings, JSNum.orDefault, hx]
    split_ifs <;> simp
